import Mathlib

/-!
# Verification of the ESP32 Network Blocker core (Controller / Switchbox firmware)

A shallow embedding of the second program of the repository
(`esp32NetworkBlocker`, the ESP-NOW Controller/Switchbox sketch): the
three-valued status model, the actuation gate `BlockNetwork`, the debounced
emergency-stop sampling `checkEmergencyStopButton`, boot-time role
negotiation `setTheRoleOfThisDeviceBasedOnItsWiring`, and the two radio
callbacks `OnDataRecv` / `OnDataSent` with the heartbeat deadline they
maintain.

Modelling conventions:
* The mutable globals of the sketch become fields of `NodeState`; each C
  function becomes a Lean function `NodeState → NodeState` (plus explicit
  inputs for everything the hardware supplies: `digitalRead` results, the
  `millis()` clock, and the outcome of `esp_now_send` / the delivery
  callback / an awaited reply).
* `digitalRead` results are `Nat` (the sketch compares them with `0`);
  `millis()` is a `Nat` instant and `unsigned long` additions are reduced
  modulo `2 ^ 32`.
* Writes to the relay pin are recorded both as the current level
  (`relayPin`, `true` = `HIGH` = energized) and as a trace of all writes
  (`relayTrace`), so "the relay was not touched" is expressible.
* Serial prints and LED pin writes are pure I/O and are not modelled.
* Each callback invocation is modelled as an atomic state transformation;
  interleavings of the radio callbacks with the main loop are outside the
  sequential embedding.
-/

namespace ESP32NetworkBlocker

/-- `device_Status` from the sketch. -/
inductive device_Status where
  | blocked
  | unblocked
  | unknown
deriving DecidableEq, Repr

/-- `transmission_Type` from the sketch. -/
inductive transmission_Type where
  | requestNetworkStatus
  | networkStatusReply
  | requestSwitchboxStatus
  | switchboxStatusReply
  | requestControllerBlockNetwork
  | requestControllerUnblockNetwork
deriving DecidableEq, Repr

/-- `transmission_Structure` from the sketch: one radio message. -/
structure transmission_Structure where
  transmission : transmission_Type
  status : device_Status
deriving DecidableEq, Repr

/-- Timing and flash-rate constants of the sketch. -/
def touchBaseTimePeriodWhenAllIsGood : Nat := 30000

def touchBaseTimePeriodWhenThereIsAKnownProblem : Nat := 5000

def touchbaseOffsetsForSwitchbox : Nat := 1500

def FlashRateOfTheLEDWhenThereIsACommunicationsProblemBetweenTheControllerAndSwitch : Nat := 333

def FlashRateOfTheLEDWhenThereIsAWiringProblem : Nat := 1000

def FlashRateOfTheLEDWhenTheESPNOWFailedToInitialize : Nat := 3000

/-- `unsigned long` is 32 bits on the ESP32. -/
def UINT32_MOD : Nat := 4294967296

/-- The mutable globals of the sketch, as one record. -/
structure NodeState where
  thisIsTheController : Bool
  thisIsTheSwitchbox : Bool
  ControllerSwitchStatus : device_Status
  SwitchBoxSwitchStatus : device_Status
  NetworkStatus : device_Status
  FlashRateOfTheLED : Nat
  nextTouchBaseTimeTarget : Nat
  /-- level last written to `controllerRelayConnectionPin`; `true` = `HIGH`. -/
  relayPin : Bool
  /-- every `digitalWrite` to the relay pin, in order. -/
  relayTrace : List Bool
deriving DecidableEq, Repr

/-- Hardware/environment inputs consumed during one modelled call:
the outcome of `esp_now_send` (`sendAccepted` = returned `ESP_OK`),
the asynchronous delivery status (`delivered` = `packedSentSuccesfully`),
the status carried by a `switchboxStatusReply` that arrives inside
`requestTheSwitchboxStatus`'s spin-wait (`none` = the 2 s timeout expires),
and the up-to-two `digitalRead` samples of each emergency-stop contact. -/
structure Env where
  sendAccepted : Bool
  delivered : Bool
  sbReply : Option device_Status
  ncRead1 : Nat
  ncRead2 : Nat
  noRead1 : Nat
  noRead2 : Nat
deriving DecidableEq, Repr

/-- `digitalWrite(controllerRelayConnectionPin, v)`. -/
def digitalWriteRelay (v : Bool) (s : NodeState) : NodeState :=
  { s with relayPin := v, relayTrace := s.relayTrace ++ [v] }

/-- The globals at static initialization: statuses `unknown`/`unknown`/
`unblocked`, flash rate 0, first touch-base target 30 s after boot. -/
def initialState : NodeState where
  thisIsTheController := false
  thisIsTheSwitchbox := false
  ControllerSwitchStatus := device_Status.unknown
  SwitchBoxSwitchStatus := device_Status.unknown
  NetworkStatus := device_Status.unblocked
  FlashRateOfTheLED := 0
  nextTouchBaseTimeTarget := touchBaseTimePeriodWhenAllIsGood
  relayPin := false
  relayTrace := []

/-- `setupTheESP32Pins`: the only relay-relevant effect is driving the
relay pin `LOW` (network starts unblocked). LED pin writes are not
modelled. -/
def setupTheESP32Pins (s : NodeState) : NodeState :=
  digitalWriteRelay false s

/-- `checkEmergencyStopButton`, pure part: the blocked/unblocked decision
from the up-to-four `digitalRead` samples.  The normally-closed contact
must read open (`≠ 0`) twice, 10 ms apart, and then the normally-open
contact must read closed (`= 0`) twice, 10 ms apart; the second test is
nested under the first exactly as in the sketch. -/
def emergencyStopDecision (ncRead1 ncRead2 noRead1 noRead2 : Nat) : device_Status :=
  let normallyClosedConnectionIsOpened :=
    if ncRead1 ≠ 0 then
      if ncRead2 ≠ 0 then true else false
    else false
  let normallyOpenedConnectionIsClosed :=
    if normallyClosedConnectionIsOpened then
      if noRead1 = 0 then
        if noRead2 = 0 then true else false
      else false
    else false
  if normallyClosedConnectionIsOpened && normallyOpenedConnectionIsClosed then
    device_Status.blocked
  else
    device_Status.unblocked

/-- `checkEmergencyStopButton`: samples this node's own emergency-stop
contacts and stores the decision in the role's own status variable. -/
def checkEmergencyStopButton (env : Env) (s : NodeState) : NodeState :=
  let d := emergencyStopDecision env.ncRead1 env.ncRead2 env.noRead1 env.noRead2
  if s.thisIsTheController then
    { s with ControllerSwitchStatus := d }
  else
    { s with SwitchBoxSwitchStatus := d }

/-- The status variable holding this node's own switch reading. -/
def ownSwitchStatus (s : NodeState) : device_Status :=
  if s.thisIsTheController then s.ControllerSwitchStatus else s.SwitchBoxSwitchStatus

/-- `provideTheSwitchboxTheNetworkStatus` (Controller → Switchbox,
`networkStatusReply`).  Its only modelled state effect: if `esp_now_send`
does not return `ESP_OK`, the comms-problem flash rate is set; otherwise
the sketch only prints. -/
def provideTheSwitchboxTheNetworkStatus (env : Env) (s : NodeState) : NodeState :=
  if ¬ s.thisIsTheController then s
  else if env.sendAccepted then s
  else { s with FlashRateOfTheLED :=
          FlashRateOfTheLEDWhenThereIsACommunicationsProblemBetweenTheControllerAndSwitch }

/-- `provideTheControllerTheSwitchboxStatus` (Switchbox → Controller,
`switchboxStatusReply`): re-samples the local switch, then sends; on an
`esp_now_send` failure the comms-problem flash rate is set. -/
def provideTheControllerTheSwitchboxStatus (env : Env) (s : NodeState) : NodeState :=
  if ¬ s.thisIsTheSwitchbox then s
  else
    let s := checkEmergencyStopButton env s
    if env.sendAccepted then s
    else { s with FlashRateOfTheLED :=
            FlashRateOfTheLEDWhenThereIsACommunicationsProblemBetweenTheControllerAndSwitch }

/-- Step of `requestTheSwitchboxStatus`: when the send was accepted and
delivered, the 2 s spin-wait either sees a `switchboxStatusReply` land in
`SwitchBoxSwitchStatus` (`env.sbReply = some v`) or times out (`none`). -/
def requestTheSwitchboxStatus.awaitReply (env : Env) (s : NodeState) : NodeState :=
  if env.sendAccepted && env.delivered then
    match env.sbReply with
    | some v => { s with SwitchBoxSwitchStatus := v }
    | none => s
  else s

/-- Step of `requestTheSwitchboxStatus`: if the status is still `unknown`
after the wait, the comms-problem flash rate is set. -/
def requestTheSwitchboxStatus.flagIfStillUnknown (s : NodeState) : NodeState :=
  if s.SwitchBoxSwitchStatus = device_Status.unknown then
    { s with FlashRateOfTheLED :=
        FlashRateOfTheLEDWhenThereIsACommunicationsProblemBetweenTheControllerAndSwitch }
  else s

/-- `requestTheSwitchboxStatus` (Controller only): clears
`SwitchBoxSwitchStatus` to `unknown`, sends `requestSwitchboxStatus`,
awaits the reply, and flags a comms problem when no reply resolved the
status. -/
def requestTheSwitchboxStatus (env : Env) (s : NodeState) : NodeState :=
  if ¬ s.thisIsTheController then s
  else
    requestTheSwitchboxStatus.flagIfStillUnknown
      (requestTheSwitchboxStatus.awaitReply env
        { s with SwitchBoxSwitchStatus := device_Status.unknown })

/-- The state at the moment `BlockNetwork`'s unblock vetoes are evaluated:
`SwitchBoxSwitchStatus` has been reset to `unknown` and, only when the
request originated at the Controller, `requestTheSwitchboxStatus` has
refreshed it. -/
def unblockGateState (env : Env) (RequestCameFromController : Bool) (s : NodeState) :
    NodeState :=
  let t := { s with SwitchBoxSwitchStatus := device_Status.unknown }
  if RequestCameFromController then requestTheSwitchboxStatus env t else t

/-- The final actuation of `BlockNetwork`: drive the relay and set
`NetworkStatus` accordingly. -/
def actuateRelay (blockNow : Bool) (s : NodeState) : NodeState :=
  if blockNow then
    { digitalWriteRelay true s with NetworkStatus := device_Status.blocked }
  else
    { digitalWriteRelay false s with NetworkStatus := device_Status.unblocked }

/-- `BlockNetwork(blockNow, RequestCameFromController)` — the actuation
gate.  `useASwitchbox` is the build-time constant (set `true` in the
source).  Early returns: non-Controller caller; block when already
blocked; unblock when already unblocked.  For an unblock with a Switchbox
configured, the two vetoes are evaluated on `unblockGateState`; either
veto returns without touching the relay. -/
def BlockNetwork (useASwitchbox : Bool) (env : Env)
    (blockNow RequestCameFromController : Bool) (s : NodeState) : NodeState :=
  if ¬ s.thisIsTheController then s
  else if blockNow = true ∧ s.NetworkStatus = device_Status.blocked then s
  else if blockNow = false ∧ s.NetworkStatus = device_Status.unblocked then s
  else if useASwitchbox = true ∧ blockNow = false then
    let t := unblockGateState env RequestCameFromController s
    if t.ControllerSwitchStatus = device_Status.blocked then t
    else if t.SwitchBoxSwitchStatus = device_Status.blocked then t
    else actuateRelay blockNow t
  else
    actuateRelay blockNow s

/-- The touch-base target written on a successful exchange:
`millis() + touchBaseTimePeriodWhenAllIsGood`, the Switchbox (non-
Controller) adding its fixed offset. -/
def goodTouchBaseTarget (now : Nat) (isController : Bool) : Nat :=
  if isController then (now + touchBaseTimePeriodWhenAllIsGood) % UINT32_MOD
  else (now + touchBaseTimePeriodWhenAllIsGood + touchbaseOffsetsForSwitchbox) % UINT32_MOD

/-- The touch-base target written on a failed send:
`millis() + touchBaseTimePeriodWhenThereIsAKnownProblem`, the Switchbox
(non-Controller) adding its fixed offset. -/
def problemTouchBaseTarget (now : Nat) (isController : Bool) : Nat :=
  if isController then (now + touchBaseTimePeriodWhenThereIsAKnownProblem) % UINT32_MOD
  else (now + touchBaseTimePeriodWhenThereIsAKnownProblem + touchbaseOffsetsForSwitchbox) %
    UINT32_MOD

/-- `OnDataSent`: the ESP-NOW send-completion callback.  On success the
flash rate is cleared and the touch-base target reset to the good
interval; on failure the comms-problem flash rate is raised and the
target shortened to the problem interval. -/
def OnDataSent (now : Nat) (success : Bool) (s : NodeState) : NodeState :=
  if success then
    { s with FlashRateOfTheLED := 0,
             nextTouchBaseTimeTarget := goodTouchBaseTarget now s.thisIsTheController }
  else
    { s with FlashRateOfTheLED :=
               FlashRateOfTheLEDWhenThereIsACommunicationsProblemBetweenTheControllerAndSwitch,
             nextTouchBaseTimeTarget := problemTouchBaseTarget now s.thisIsTheController }

/-- `OnDataRecv`: the ESP-NOW receive callback.  It first clears the flash
rate and resets the touch-base target to the good interval, then
dispatches on the message kind according to the node's role; a kind the
role does not handle falls through to the comms-problem flash rate. -/
def OnDataRecv (useASwitchbox : Bool) (now : Nat) (env : Env)
    (msg : transmission_Structure) (s : NodeState) : NodeState :=
  let s := { s with FlashRateOfTheLED := 0,
                    nextTouchBaseTimeTarget := goodTouchBaseTarget now s.thisIsTheController }
  if s.thisIsTheController then
    if msg.transmission = transmission_Type.requestNetworkStatus then
      provideTheSwitchboxTheNetworkStatus env s
    else if msg.transmission = transmission_Type.switchboxStatusReply then
      { s with SwitchBoxSwitchStatus := msg.status }
    else if msg.transmission = transmission_Type.requestControllerBlockNetwork then
      let s := { s with SwitchBoxSwitchStatus := device_Status.blocked }
      let s := BlockNetwork useASwitchbox env true false s
      provideTheSwitchboxTheNetworkStatus env s
    else if msg.transmission = transmission_Type.requestControllerUnblockNetwork then
      let s := { s with SwitchBoxSwitchStatus := device_Status.unblocked }
      let s := BlockNetwork useASwitchbox env false false s
      provideTheSwitchboxTheNetworkStatus env s
    else
      { s with FlashRateOfTheLED :=
          FlashRateOfTheLEDWhenThereIsACommunicationsProblemBetweenTheControllerAndSwitch }
  else
    if msg.transmission = transmission_Type.networkStatusReply then
      { s with NetworkStatus := msg.status }
    else if msg.transmission = transmission_Type.requestSwitchboxStatus then
      provideTheControllerTheSwitchboxStatus env s
    else
      { s with FlashRateOfTheLED :=
          FlashRateOfTheLEDWhenThereIsACommunicationsProblemBetweenTheControllerAndSwitch }

/-- The message kinds `OnDataRecv` dispatches when the node is the
Controller. -/
def handledByController (t : transmission_Type) : Bool :=
  match t with
  | transmission_Type.requestNetworkStatus => true
  | transmission_Type.switchboxStatusReply => true
  | transmission_Type.requestControllerBlockNetwork => true
  | transmission_Type.requestControllerUnblockNetwork => true
  | _ => false

/-- The message kinds `OnDataRecv` dispatches when the node is not the
Controller (i.e. is the Switchbox). -/
def handledBySwitchboxNode (t : transmission_Type) : Bool :=
  match t with
  | transmission_Type.networkStatusReply => true
  | transmission_Type.requestSwitchboxStatus => true
  | _ => false

/-- The up-to-two `digitalRead` samples of each of the four emergency-stop
contacts taken by `setTheRoleOfThisDeviceBasedOnItsWiring`
(`c` = Controller pins, `s` = Switchbox pins, `NC`/`NO` = normally
closed / normally opened contact). -/
structure RoleWiringReads where
  cNCRead1 : Nat
  cNCRead2 : Nat
  cNORead1 : Nat
  cNORead2 : Nat
  sNCRead1 : Nat
  sNCRead2 : Nat
  sNORead1 : Nat
  sNORead2 : Nat
deriving DecidableEq, Repr

/-- One debounce test of the role check: the pin reads `0` and still reads
`0` after the 10 ms delay. -/
def debounceConfirmedClosed (read1 read2 : Nat) : Bool :=
  if read1 = 0 then
    if read2 = 0 then true else false
  else false

/-- `openControllerCircuts` computed by the role check. -/
def openControllerCircutsOf (w : RoleWiringReads) : Nat :=
  (if debounceConfirmedClosed w.cNCRead1 w.cNCRead2 then 1 else 0) +
  (if debounceConfirmedClosed w.cNORead1 w.cNORead2 then 1 else 0)

/-- `openSwitchboxCircuts` computed by the role check. -/
def openSwitchboxCircutsOf (w : RoleWiringReads) : Nat :=
  (if debounceConfirmedClosed w.sNCRead1 w.sNCRead2 then 1 else 0) +
  (if debounceConfirmedClosed w.sNORead1 w.sNORead2 then 1 else 0)

/-- `totalOpenCircuts` computed by the role check. -/
def totalOpenCircutsOf (w : RoleWiringReads) : Nat :=
  openSwitchboxCircutsOf w + openControllerCircutsOf w

/-- `setTheRoleOfThisDeviceBasedOnItsWiring`: clears both role flags,
counts the debounce-confirmed closed contacts, assigns a role on a count
of exactly one (Controller pins win the Controller role, otherwise the
Switchbox role), flags a wiring problem otherwise; a Switchbox
determination with `useASwitchbox = false` is downgraded to a wiring
problem by zeroing the count.  Returns the updated state and the
function's boolean result (`totalOpenCircuts == 1`). -/
def setTheRoleOfThisDeviceBasedOnItsWiring (useASwitchbox : Bool) (w : RoleWiringReads)
    (s : NodeState) : NodeState × Bool :=
  let s := { s with thisIsTheSwitchbox := false, thisIsTheController := false }
  let totalOpenCircuts := totalOpenCircutsOf w
  let s :=
    if totalOpenCircuts = 1 then
      if openControllerCircutsOf w = 1 then { s with thisIsTheController := true }
      else { s with thisIsTheSwitchbox := true }
    else
      { s with FlashRateOfTheLED := FlashRateOfTheLEDWhenThereIsAWiringProblem }
  let mismatch := s.thisIsTheSwitchbox && !useASwitchbox
  let s :=
    if mismatch then
      { s with FlashRateOfTheLED := FlashRateOfTheLEDWhenThereIsAWiringProblem }
    else s
  let totalOpenCircuts := if mismatch then 0 else totalOpenCircuts
  (s, totalOpenCircuts = 1)

/-- The outcome of `setup()` up to and including role negotiation: either
the terminal `while (true) LEDUpdateAsRequried();` alarm loop (whose body
touches neither the relay, the statuses, nor the radio), or the state
from which `setup` proceeds to networking. -/
inductive BootOutcome where
  | alarmLoopForever (s : NodeState)
  | proceed (s : NodeState)
deriving DecidableEq, Repr

/-- `setup()` through role negotiation: pin setup drives the relay `LOW`,
then the wiring check either determines the role or sends the node into
the terminal alarm loop. -/
def setupThroughRoleCheck (useASwitchbox : Bool) (w : RoleWiringReads) : BootOutcome :=
  let s := setupTheESP32Pins initialState
  let r := setTheRoleOfThisDeviceBasedOnItsWiring useASwitchbox w s
  if r.2 then BootOutcome.proceed r.1 else BootOutcome.alarmLoopForever r.1

/-- The node state carried by a boot outcome. -/
def bootStateOf : BootOutcome → NodeState
  | BootOutcome.alarmLoopForever s => s
  | BootOutcome.proceed s => s

/-- Whether a boot outcome is the terminal alarm-only loop. -/
def isAlarmLoop : BootOutcome → Bool
  | BootOutcome.alarmLoopForever _ => true
  | BootOutcome.proceed _ => false

/-- `periodicCheckToEnsureCommunicationsAreOK`'s firing condition:
`millis() > nextTouchBaseTimeTarget`. -/
def touchBaseCheckIsDue (now : Nat) (s : NodeState) : Bool :=
  decide (now > s.nextTouchBaseTimeTarget)

/-! ## Frame lemmas -/

theorem awaitReply_frame (env : Env) (s : NodeState) :
    (requestTheSwitchboxStatus.awaitReply env s).thisIsTheController =
      s.thisIsTheController ∧
    (requestTheSwitchboxStatus.awaitReply env s).thisIsTheSwitchbox = s.thisIsTheSwitchbox ∧
    (requestTheSwitchboxStatus.awaitReply env s).ControllerSwitchStatus =
      s.ControllerSwitchStatus ∧
    (requestTheSwitchboxStatus.awaitReply env s).NetworkStatus = s.NetworkStatus ∧
    (requestTheSwitchboxStatus.awaitReply env s).relayPin = s.relayPin ∧
    (requestTheSwitchboxStatus.awaitReply env s).relayTrace = s.relayTrace ∧
    (requestTheSwitchboxStatus.awaitReply env s).nextTouchBaseTimeTarget =
      s.nextTouchBaseTimeTarget ∧
    (requestTheSwitchboxStatus.awaitReply env s).FlashRateOfTheLED = s.FlashRateOfTheLED := by
  unfold requestTheSwitchboxStatus.awaitReply
  repeat' split
  all_goals exact ⟨rfl, rfl, rfl, rfl, rfl, rfl, rfl, rfl⟩

theorem flagIfStillUnknown_frame (s : NodeState) :
    (requestTheSwitchboxStatus.flagIfStillUnknown s).thisIsTheController =
      s.thisIsTheController ∧
    (requestTheSwitchboxStatus.flagIfStillUnknown s).thisIsTheSwitchbox =
      s.thisIsTheSwitchbox ∧
    (requestTheSwitchboxStatus.flagIfStillUnknown s).ControllerSwitchStatus =
      s.ControllerSwitchStatus ∧
    (requestTheSwitchboxStatus.flagIfStillUnknown s).NetworkStatus = s.NetworkStatus ∧
    (requestTheSwitchboxStatus.flagIfStillUnknown s).relayPin = s.relayPin ∧
    (requestTheSwitchboxStatus.flagIfStillUnknown s).relayTrace = s.relayTrace ∧
    (requestTheSwitchboxStatus.flagIfStillUnknown s).nextTouchBaseTimeTarget =
      s.nextTouchBaseTimeTarget ∧
    (requestTheSwitchboxStatus.flagIfStillUnknown s).SwitchBoxSwitchStatus =
      s.SwitchBoxSwitchStatus := by
  unfold requestTheSwitchboxStatus.flagIfStillUnknown
  split
  all_goals exact ⟨rfl, rfl, rfl, rfl, rfl, rfl, rfl, rfl⟩

theorem requestTheSwitchboxStatus_frame (env : Env) (s : NodeState) :
    (requestTheSwitchboxStatus env s).thisIsTheController = s.thisIsTheController ∧
    (requestTheSwitchboxStatus env s).thisIsTheSwitchbox = s.thisIsTheSwitchbox ∧
    (requestTheSwitchboxStatus env s).ControllerSwitchStatus = s.ControllerSwitchStatus ∧
    (requestTheSwitchboxStatus env s).NetworkStatus = s.NetworkStatus ∧
    (requestTheSwitchboxStatus env s).relayPin = s.relayPin ∧
    (requestTheSwitchboxStatus env s).relayTrace = s.relayTrace ∧
    (requestTheSwitchboxStatus env s).nextTouchBaseTimeTarget = s.nextTouchBaseTimeTarget := by
  unfold requestTheSwitchboxStatus
  split
  · exact ⟨rfl, rfl, rfl, rfl, rfl, rfl, rfl⟩
  · obtain ⟨a1, a2, a3, a4, a5, a6, a7, _⟩ :=
      awaitReply_frame env { s with SwitchBoxSwitchStatus := device_Status.unknown }
    obtain ⟨b1, b2, b3, b4, b5, b6, b7, _⟩ :=
      flagIfStillUnknown_frame
        (requestTheSwitchboxStatus.awaitReply env
          { s with SwitchBoxSwitchStatus := device_Status.unknown })
    exact ⟨b1.trans a1, b2.trans a2, b3.trans a3, b4.trans a4, b5.trans a5, b6.trans a6,
      b7.trans a7⟩

theorem unblockGateState_frame (env : Env) (fc : Bool) (s : NodeState) :
    (unblockGateState env fc s).thisIsTheController = s.thisIsTheController ∧
    (unblockGateState env fc s).ControllerSwitchStatus = s.ControllerSwitchStatus ∧
    (unblockGateState env fc s).NetworkStatus = s.NetworkStatus ∧
    (unblockGateState env fc s).relayPin = s.relayPin ∧
    (unblockGateState env fc s).relayTrace = s.relayTrace := by
  unfold unblockGateState
  cases fc with
  | false => exact ⟨rfl, rfl, rfl, rfl, rfl⟩
  | true =>
      obtain ⟨h1, _, h3, h4, h5, h6, _⟩ :=
        requestTheSwitchboxStatus_frame env
          { s with SwitchBoxSwitchStatus := device_Status.unknown }
      exact ⟨h1, h3, h4, h5, h6⟩

theorem provideTheSwitchboxTheNetworkStatus_frame (env : Env) (s : NodeState) :
    (provideTheSwitchboxTheNetworkStatus env s).thisIsTheController = s.thisIsTheController ∧
    (provideTheSwitchboxTheNetworkStatus env s).thisIsTheSwitchbox = s.thisIsTheSwitchbox ∧
    (provideTheSwitchboxTheNetworkStatus env s).ControllerSwitchStatus =
      s.ControllerSwitchStatus ∧
    (provideTheSwitchboxTheNetworkStatus env s).SwitchBoxSwitchStatus =
      s.SwitchBoxSwitchStatus ∧
    (provideTheSwitchboxTheNetworkStatus env s).NetworkStatus = s.NetworkStatus ∧
    (provideTheSwitchboxTheNetworkStatus env s).relayPin = s.relayPin ∧
    (provideTheSwitchboxTheNetworkStatus env s).relayTrace = s.relayTrace ∧
    (provideTheSwitchboxTheNetworkStatus env s).nextTouchBaseTimeTarget =
      s.nextTouchBaseTimeTarget := by
  unfold provideTheSwitchboxTheNetworkStatus
  repeat' split
  all_goals exact ⟨rfl, rfl, rfl, rfl, rfl, rfl, rfl, rfl⟩


/-! ## Sample states used by witnesses and counterexamples -/

/-- A Controller-role node with the network blocked and both switches
released. -/
def sampleControllerState : NodeState where
  thisIsTheController := true
  thisIsTheSwitchbox := false
  ControllerSwitchStatus := device_Status.unblocked
  SwitchBoxSwitchStatus := device_Status.unblocked
  NetworkStatus := device_Status.blocked
  FlashRateOfTheLED := 0
  nextTouchBaseTimeTarget := 30000
  relayPin := true
  relayTrace := [false, true]

/-- An environment whose send is accepted, delivered, and answered with an
`unblocked` reply; the local button reads fully released. -/
def sampleEnv : Env where
  sendAccepted := true
  delivered := true
  sbReply := some device_Status.unblocked
  ncRead1 := 0
  ncRead2 := 0
  noRead1 := 1
  noRead2 := 1

/-! ## Claims -/

/-- Claim C2: for every sequence of physical pin reads,
`checkEmergencyStopButton` sets the node's own switch status to `blocked`
if and only if both debounced sub-tests pass — the normally-closed
contact reads open (`≠ 0`) on two reads 10 ms apart AND the normally-open
contact reads closed (`= 0`) on two reads 10 ms apart; any glitch that
does not survive the re-read leaves the result `unblocked` (the result is
never `unknown`). -/
theorem checkEmergencyStopButton_blocked_iff (env : Env) (s : NodeState) :
    (ownSwitchStatus (checkEmergencyStopButton env s) = device_Status.blocked ↔
      (env.ncRead1 ≠ 0 ∧ env.ncRead2 ≠ 0 ∧ env.noRead1 = 0 ∧ env.noRead2 = 0)) ∧
    (ownSwitchStatus (checkEmergencyStopButton env s) = device_Status.blocked ∨
      ownSwitchStatus (checkEmergencyStopButton env s) = device_Status.unblocked) := by
  by_cases h1 : env.ncRead1 = 0 <;> by_cases h2 : env.ncRead2 = 0 <;>
    by_cases h3 : env.noRead1 = 0 <;> by_cases h4 : env.noRead2 = 0 <;>
    by_cases hc : s.thisIsTheController = true <;>
    simp [checkEmergencyStopButton, ownSwitchStatus, emergencyStopDecision, h1, h2, h3, h4, hc]

/-- Claim C9: `OnDataSent` on success clears the flash rate to 0 and
resets the touch-base deadline to now + 30 s (a non-Controller node — the
Switchbox — adds its fixed 1.5 s offset); on failure it raises the
comms-problem flash rate (333 ms) and shortens the deadline to now + 5 s
(plus the same offset), so the periodic check fires within the short
interval (due 6 501 ms after the failure at the latest), and a subsequent
successful completion reverts the deadline to the good interval. -/
theorem OnDataSent_deadline_spec (now1 now2 : Nat) (s : NodeState)
    (hwrap : now1 + 6501 < UINT32_MOD) :
    ((OnDataSent now1 true s).FlashRateOfTheLED = 0 ∧
      (OnDataSent now1 true s).nextTouchBaseTimeTarget =
        (now1 + 30000 + (if s.thisIsTheController then 0 else 1500)) % UINT32_MOD) ∧
    ((OnDataSent now1 false s).FlashRateOfTheLED = 333 ∧
      (OnDataSent now1 false s).nextTouchBaseTimeTarget =
        (now1 + 5000 + (if s.thisIsTheController then 0 else 1500)) % UINT32_MOD) ∧
    touchBaseCheckIsDue (now1 + 6501) (OnDataSent now1 false s) = true ∧
    (OnDataSent now2 true (OnDataSent now1 false s)).nextTouchBaseTimeTarget =
      (now2 + 30000 + (if s.thisIsTheController then 0 else 1500)) % UINT32_MOD := by
  have hM : now1 + 6501 < 4294967296 := by simpa [UINT32_MOD] using hwrap
  by_cases hc : s.thisIsTheController = true <;>
    simp [OnDataSent, goodTouchBaseTarget, problemTouchBaseTarget, touchBaseCheckIsDue,
      touchBaseTimePeriodWhenAllIsGood, touchBaseTimePeriodWhenThereIsAKnownProblem,
      touchbaseOffsetsForSwitchbox, UINT32_MOD,
      FlashRateOfTheLEDWhenThereIsACommunicationsProblemBetweenTheControllerAndSwitch,
      hc, decide_eq_true_eq] <;>
    omega

/-- Witness for Claim C9 at a concrete instant and state. -/
theorem OnDataSent_deadline_spec_witness :
    (OnDataSent 1000 false sampleControllerState).FlashRateOfTheLED = 333 :=
  (OnDataSent_deadline_spec 1000 0 sampleControllerState (by decide)).2.1.1

/-- Claim C1: a `BlockNetwork` unblock request on the Controller (Switchbox
configured, network currently blocked) is granted — relay written `LOW`
and `NetworkStatus` set to `unblocked` — if and only if, at the moment of
the veto check (after `SwitchBoxSwitchStatus` is reset and optionally
refreshed), `ControllerSwitchStatus ≠ blocked` and
`SwitchBoxSwitchStatus ≠ blocked` (`unknown` counts as non-blocking); when
either status is `blocked` the relay is not touched. -/
theorem BlockNetwork_unblock_granted_iff (env : Env) (fc : Bool) (s : NodeState)
    (hc : s.thisIsTheController = true) (hb : s.NetworkStatus = device_Status.blocked) :
    (((BlockNetwork true env false fc s).NetworkStatus = device_Status.unblocked ∧
      (BlockNetwork true env false fc s).relayPin = false ∧
      (BlockNetwork true env false fc s).relayTrace = s.relayTrace ++ [false]) ↔
     ((unblockGateState env fc s).ControllerSwitchStatus ≠ device_Status.blocked ∧
      (unblockGateState env fc s).SwitchBoxSwitchStatus ≠ device_Status.blocked)) ∧
    (((unblockGateState env fc s).ControllerSwitchStatus = device_Status.blocked ∨
      (unblockGateState env fc s).SwitchBoxSwitchStatus = device_Status.blocked) →
      ((BlockNetwork true env false fc s).relayTrace = s.relayTrace ∧
       (BlockNetwork true env false fc s).relayPin = s.relayPin ∧
       (BlockNetwork true env false fc s).NetworkStatus = device_Status.blocked)) := by
  obtain ⟨g1, g2, g3, g4, g5⟩ := unblockGateState_frame env fc s
  by_cases hcs : (unblockGateState env fc s).ControllerSwitchStatus = device_Status.blocked
  · have hbn : BlockNetwork true env false fc s = unblockGateState env fc s := by
      simp [BlockNetwork, hc, hb, hcs]
    rw [hbn]
    simp [g3, g4, g5, hb, hcs]
  · by_cases hss : (unblockGateState env fc s).SwitchBoxSwitchStatus = device_Status.blocked
    · have hbn : BlockNetwork true env false fc s = unblockGateState env fc s := by
        simp [BlockNetwork, hc, hb, hcs, hss]
      rw [hbn]
      simp [g3, g4, g5, hb, hcs, hss]
    · have hbn : BlockNetwork true env false fc s =
          actuateRelay false (unblockGateState env fc s) := by
        simp [BlockNetwork, hc, hb, hcs, hss]
      rw [hbn]
      simp [actuateRelay, digitalWriteRelay, g3, g4, g5, hcs, hss]

/-- Witness for Claim C1: with both switches released the unblock goes
through. -/
theorem BlockNetwork_unblock_granted_iff_witness :
    (BlockNetwork true sampleEnv false true sampleControllerState).NetworkStatus =
      device_Status.unblocked :=
  (((BlockNetwork_unblock_granted_iff sampleEnv true sampleControllerState rfl rfl).1).mpr
    (by decide)).1

/-- Claim C4: on the Controller, a block request with the network already
blocked is a strict no-op, and otherwise a block request is honored
unconditionally and immediately — relay energized (`HIGH`) and
`NetworkStatus := blocked` — regardless of `ControllerSwitchStatus`,
`SwitchBoxSwitchStatus`, the Switchbox build flag, and the request origin;
symmetrically an unblock request with the network already unblocked is a
strict no-op. -/
theorem BlockNetwork_block_unconditional_and_noop (u : Bool) (env : Env) (fc : Bool)
    (s : NodeState) (hc : s.thisIsTheController = true) :
    (s.NetworkStatus = device_Status.blocked → BlockNetwork u env true fc s = s) ∧
    (s.NetworkStatus ≠ device_Status.blocked →
      BlockNetwork u env true fc s =
        { s with relayPin := true, relayTrace := s.relayTrace ++ [true],
                 NetworkStatus := device_Status.blocked }) ∧
    (s.NetworkStatus = device_Status.unblocked → BlockNetwork u env false fc s = s) := by
  refine ⟨fun h => ?_, fun h => ?_, fun h => ?_⟩
  · simp [BlockNetwork, hc, h]
  · simp [BlockNetwork, hc, h, actuateRelay, digitalWriteRelay]
  · simp [BlockNetwork, hc, h]

/-- Witness for Claim C4: blocking while already blocked leaves the state
untouched. -/
theorem BlockNetwork_block_unconditional_and_noop_witness :
    BlockNetwork true sampleEnv true true sampleControllerState = sampleControllerState :=
  (BlockNetwork_block_unconditional_and_noop true sampleEnv true sampleControllerState rfl).1 rfl

/-- A Controller-role node with the network blocked and both emergency
buttons engaged; an unblock request here is denied by the Controller-side
veto. -/
def deniedUnblockState : NodeState where
  thisIsTheController := true
  thisIsTheSwitchbox := false
  ControllerSwitchStatus := device_Status.blocked
  SwitchBoxSwitchStatus := device_Status.blocked
  NetworkStatus := device_Status.blocked
  FlashRateOfTheLED := 0
  nextTouchBaseTimeTarget := 30000
  relayPin := true
  relayTrace := [false, true]

/-- Counterexample to Claim C5 as stated: a denied unblock leaves the
relay and `NetworkStatus` alone but does NOT leave every status variable
unchanged — `SwitchBoxSwitchStatus` is reset from `blocked` to `unknown`
on the way to the veto check. -/
theorem BlockNetwork_denied_changes_SwitchBoxSwitchStatus :
    (BlockNetwork true sampleEnv false false deniedUnblockState).NetworkStatus =
        device_Status.blocked ∧
    (BlockNetwork true sampleEnv false false deniedUnblockState).relayTrace =
        deniedUnblockState.relayTrace ∧
    deniedUnblockState.SwitchBoxSwitchStatus = device_Status.blocked ∧
    (BlockNetwork true sampleEnv false false deniedUnblockState).SwitchBoxSwitchStatus =
      device_Status.unknown := by decide

/-- Claim C5 (amended): a denied unblock (Controller or Switchbox side
`blocked` at the veto check) changes neither the relay output (no write,
level unchanged) nor `NetworkStatus` nor `ControllerSwitchStatus`;
`SwitchBoxSwitchStatus`, however, ends as the veto check saw it — reset to
`unknown` and possibly refreshed by a status reply. -/
theorem BlockNetwork_denied_frame (env : Env) (fc : Bool) (s : NodeState)
    (hc : s.thisIsTheController = true) (hb : s.NetworkStatus = device_Status.blocked)
    (hveto : (unblockGateState env fc s).ControllerSwitchStatus = device_Status.blocked ∨
      (unblockGateState env fc s).SwitchBoxSwitchStatus = device_Status.blocked) :
    (BlockNetwork true env false fc s).relayTrace = s.relayTrace ∧
    (BlockNetwork true env false fc s).relayPin = s.relayPin ∧
    (BlockNetwork true env false fc s).NetworkStatus = s.NetworkStatus ∧
    (BlockNetwork true env false fc s).ControllerSwitchStatus = s.ControllerSwitchStatus ∧
    (BlockNetwork true env false fc s).SwitchBoxSwitchStatus =
      (unblockGateState env fc s).SwitchBoxSwitchStatus := by
  obtain ⟨g1, g2, g3, g4, g5⟩ := unblockGateState_frame env fc s
  by_cases hcs : (unblockGateState env fc s).ControllerSwitchStatus = device_Status.blocked
  · have hbn : BlockNetwork true env false fc s = unblockGateState env fc s := by
      simp [BlockNetwork, hc, hb, hcs]
    rw [hbn]
    exact ⟨g5, g4, g3, g2, rfl⟩
  · have hss : (unblockGateState env fc s).SwitchBoxSwitchStatus = device_Status.blocked :=
      hveto.resolve_left hcs
    have hbn : BlockNetwork true env false fc s = unblockGateState env fc s := by
      simp [BlockNetwork, hc, hb, hcs, hss]
    rw [hbn]
    exact ⟨g5, g4, g3, g2, rfl⟩

/-- Witness for Claim C5 (amended) at the concrete denied request. -/
theorem BlockNetwork_denied_frame_witness :
    (BlockNetwork true sampleEnv false false deniedUnblockState).NetworkStatus =
      deniedUnblockState.NetworkStatus :=
  (BlockNetwork_denied_frame sampleEnv false deniedUnblockState rfl rfl
    (Or.inl (by decide))).2.2.1

/-- Claim C10: when the Controller handles `requestControllerUnblockNetwork`
with the network blocked (Switchbox configured), the Switchbox-side veto is
unreachable — the handler first sets `SwitchBoxSwitchStatus := unblocked`,
then `BlockNetwork(false, false)` resets it to `unknown` and, the request
not having come from the Controller, performs no refresh — so the unblock
is granted iff `ControllerSwitchStatus ≠ blocked`, and
`SwitchBoxSwitchStatus` is left `unknown`. -/
theorem OnDataRecv_unblock_switchbox_veto_unreachable (now : Nat) (env : Env)
    (st : device_Status) (s : NodeState) (hc : s.thisIsTheController = true)
    (hb : s.NetworkStatus = device_Status.blocked) :
    ((OnDataRecv true now env
        ⟨transmission_Type.requestControllerUnblockNetwork, st⟩ s).NetworkStatus =
          device_Status.unblocked ↔
      s.ControllerSwitchStatus ≠ device_Status.blocked) ∧
    (OnDataRecv true now env
        ⟨transmission_Type.requestControllerUnblockNetwork, st⟩ s).SwitchBoxSwitchStatus =
      device_Status.unknown := by
  have hNS : ∀ w, (provideTheSwitchboxTheNetworkStatus env w).NetworkStatus =
      w.NetworkStatus :=
    fun w => (provideTheSwitchboxTheNetworkStatus_frame env w).2.2.2.2.1
  have hSB : ∀ w, (provideTheSwitchboxTheNetworkStatus env w).SwitchBoxSwitchStatus =
      w.SwitchBoxSwitchStatus :=
    fun w => (provideTheSwitchboxTheNetworkStatus_frame env w).2.2.2.1
  by_cases hcs : s.ControllerSwitchStatus = device_Status.blocked <;>
    simp [OnDataRecv, BlockNetwork, unblockGateState, actuateRelay, digitalWriteRelay,
      hc, hb, hcs, hNS, hSB]

/-- Witness for Claim C10: with the Controller switch released the remote
unblock request is granted even though the Switchbox switch was believed
blocked. -/
theorem OnDataRecv_unblock_switchbox_veto_unreachable_witness :
    (OnDataRecv true 0 sampleEnv
        ⟨transmission_Type.requestControllerUnblockNetwork, device_Status.unknown⟩
        { sampleControllerState with
            SwitchBoxSwitchStatus := device_Status.blocked }).NetworkStatus =
      device_Status.unblocked :=
  ((OnDataRecv_unblock_switchbox_veto_unreachable 0 sampleEnv device_Status.unknown
      { sampleControllerState with SwitchBoxSwitchStatus := device_Status.blocked }
      rfl rfl).1).mpr (by decide)

/-- The C3 invariant: the relay is energized (`HIGH`) exactly when
`NetworkStatus` is `blocked`. -/
def relayMatchesNetworkStatus (s : NodeState) : Prop :=
  s.NetworkStatus = device_Status.blocked ↔ s.relayPin = true

instance (s : NodeState) : Decidable (relayMatchesNetworkStatus s) := by
  unfold relayMatchesNetworkStatus
  infer_instance

/-- `BlockNetwork` always ends in one of four states: untouched, the
unblock-gate state (vetoed), or the actuation applied to the gate state or
to the input. -/
theorem BlockNetwork_cases (u : Bool) (env : Env) (b fc : Bool) (s : NodeState) :
    BlockNetwork u env b fc s = s ∨
    BlockNetwork u env b fc s = unblockGateState env fc s ∨
    BlockNetwork u env b fc s = actuateRelay b (unblockGateState env fc s) ∨
    BlockNetwork u env b fc s = actuateRelay b s := by
  simp only [BlockNetwork]
  repeat' split
  all_goals simp

theorem BlockNetwork_preserves_relayMatch (u : Bool) (env : Env) (b fc : Bool)
    (s : NodeState) (hinv : relayMatchesNetworkStatus s) :
    relayMatchesNetworkStatus (BlockNetwork u env b fc s) := by
  rcases BlockNetwork_cases u env b fc s with h | h | h | h <;> rw [h]
  · exact hinv
  · obtain ⟨_, _, g3, g4, _⟩ := unblockGateState_frame env fc s
    unfold relayMatchesNetworkStatus at hinv ⊢
    rw [g3, g4]
    exact hinv
  · unfold relayMatchesNetworkStatus actuateRelay digitalWriteRelay
    split <;> simp
  · unfold relayMatchesNetworkStatus actuateRelay digitalWriteRelay
    split <;> simp

theorem provideNetworkStatus_preserves_relayMatch (env : Env) (w : NodeState)
    (h : relayMatchesNetworkStatus w) :
    relayMatchesNetworkStatus (provideTheSwitchboxTheNetworkStatus env w) := by
  unfold relayMatchesNetworkStatus at h ⊢
  rw [(provideTheSwitchboxTheNetworkStatus_frame env w).2.2.2.2.1,
    (provideTheSwitchboxTheNetworkStatus_frame env w).2.2.2.2.2.1]
  exact h

theorem OnDataRecv_blockRequest_eq (u : Bool) (now : Nat) (env : Env) (st : device_Status)
    (s : NodeState) (hc : s.thisIsTheController = true) :
    OnDataRecv u now env ⟨transmission_Type.requestControllerBlockNetwork, st⟩ s =
      provideTheSwitchboxTheNetworkStatus env
        (BlockNetwork u env true false
          { s with FlashRateOfTheLED := 0,
                   nextTouchBaseTimeTarget := goodTouchBaseTarget now s.thisIsTheController,
                   SwitchBoxSwitchStatus := device_Status.blocked }) := by
  simp [OnDataRecv, hc]

theorem OnDataRecv_unblockRequest_eq (u : Bool) (now : Nat) (env : Env)
    (st : device_Status) (s : NodeState) (hc : s.thisIsTheController = true) :
    OnDataRecv u now env ⟨transmission_Type.requestControllerUnblockNetwork, st⟩ s =
      provideTheSwitchboxTheNetworkStatus env
        (BlockNetwork u env false false
          { s with FlashRateOfTheLED := 0,
                   nextTouchBaseTimeTarget := goodTouchBaseTarget now s.thisIsTheController,
                   SwitchBoxSwitchStatus := device_Status.unblocked }) := by
  simp [OnDataRecv, hc]

theorem OnDataRecv_preserves_relayMatch (u : Bool) (now : Nat) (env : Env)
    (msg : transmission_Structure) (s : NodeState) (hc : s.thisIsTheController = true)
    (hinv : relayMatchesNetworkStatus s) :
    relayMatchesNetworkStatus (OnDataRecv u now env msg s) := by
  obtain ⟨t, st⟩ := msg
  cases t
  case requestNetworkStatus =>
    have heq : OnDataRecv u now env ⟨transmission_Type.requestNetworkStatus, st⟩ s =
        provideTheSwitchboxTheNetworkStatus env
          { s with FlashRateOfTheLED := 0,
                   nextTouchBaseTimeTarget := goodTouchBaseTarget now s.thisIsTheController } := by
      simp [OnDataRecv, hc]
    rw [heq]
    exact provideNetworkStatus_preserves_relayMatch env _ hinv
  case networkStatusReply =>
    have heq : OnDataRecv u now env ⟨transmission_Type.networkStatusReply, st⟩ s =
        { s with FlashRateOfTheLED :=
                   FlashRateOfTheLEDWhenThereIsACommunicationsProblemBetweenTheControllerAndSwitch,
                 nextTouchBaseTimeTarget := goodTouchBaseTarget now s.thisIsTheController } := by
      simp [OnDataRecv, hc]
    rw [heq]
    exact hinv
  case requestSwitchboxStatus =>
    have heq : OnDataRecv u now env ⟨transmission_Type.requestSwitchboxStatus, st⟩ s =
        { s with FlashRateOfTheLED :=
                   FlashRateOfTheLEDWhenThereIsACommunicationsProblemBetweenTheControllerAndSwitch,
                 nextTouchBaseTimeTarget := goodTouchBaseTarget now s.thisIsTheController } := by
      simp [OnDataRecv, hc]
    rw [heq]
    exact hinv
  case switchboxStatusReply =>
    have heq : OnDataRecv u now env ⟨transmission_Type.switchboxStatusReply, st⟩ s =
        { s with FlashRateOfTheLED := 0,
                 nextTouchBaseTimeTarget := goodTouchBaseTarget now s.thisIsTheController,
                 SwitchBoxSwitchStatus := st } := by
      simp [OnDataRecv, hc]
    rw [heq]
    exact hinv
  case requestControllerBlockNetwork =>
    rw [OnDataRecv_blockRequest_eq u now env st s hc]
    exact provideNetworkStatus_preserves_relayMatch env _
      (BlockNetwork_preserves_relayMatch u env true false _ hinv)
  case requestControllerUnblockNetwork =>
    rw [OnDataRecv_unblockRequest_eq u now env st s hc]
    exact provideNetworkStatus_preserves_relayMatch env _
      (BlockNetwork_preserves_relayMatch u env false false _ hinv)

/-- Claim C3: on the Controller, `NetworkStatus = blocked` iff the relay
output is driven `HIGH`: the boot pin setup drives the relay `LOW` with
`NetworkStatus` initialized `unblocked`, and both `BlockNetwork` and the
Controller's receive handler pair every relay write with the matching
`NetworkStatus` assignment, preserving the equivalence at the granularity
of every modelled call. -/
theorem relay_networkStatus_invariant :
    ((setupTheESP32Pins initialState).relayPin = false ∧
     (setupTheESP32Pins initialState).NetworkStatus = device_Status.unblocked ∧
     relayMatchesNetworkStatus (setupTheESP32Pins initialState)) ∧
    (∀ (u b fc : Bool) (env : Env) (s : NodeState), relayMatchesNetworkStatus s →
      relayMatchesNetworkStatus (BlockNetwork u env b fc s)) ∧
    (∀ (u : Bool) (now : Nat) (env : Env) (msg : transmission_Structure) (s : NodeState),
      s.thisIsTheController = true → relayMatchesNetworkStatus s →
      relayMatchesNetworkStatus (OnDataRecv u now env msg s)) :=
  ⟨⟨rfl, rfl, by decide⟩,
   fun u b fc env s h => BlockNetwork_preserves_relayMatch u env b fc s h,
   fun u now env msg s hc h => OnDataRecv_preserves_relayMatch u now env msg s hc h⟩

/-- Witness for Claim C3: the invariant is preserved through a concrete
block actuation. -/
theorem relay_networkStatus_invariant_witness :
    relayMatchesNetworkStatus (BlockNetwork true sampleEnv true true sampleControllerState) :=
  relay_networkStatus_invariant.2.1 true true true sampleEnv sampleControllerState (by decide)

/-- Claim C6: role negotiation returns a determined role (`true`) iff
exactly one of the four debounce-confirmed contacts reads closed AND the
determination is not a Switchbox with `useASwitchbox = false`; the closed
Controller contact yields the Controller role, a closed Switchbox contact
yields the Switchbox role; a Switchbox determination without Switchbox
support, and any other closed-count (0 or 2+), is a wiring fault with the
WiringProblem flash rate set and `false` returned. -/
theorem setTheRole_wiring_spec (u : Bool) (w : RoleWiringReads) (s : NodeState) :
    ((setTheRoleOfThisDeviceBasedOnItsWiring u w s).2 = true ↔
      (totalOpenCircutsOf w = 1 ∧ (openControllerCircutsOf w = 1 ∨ u = true))) ∧
    (totalOpenCircutsOf w = 1 → openControllerCircutsOf w = 1 →
      (setTheRoleOfThisDeviceBasedOnItsWiring u w s).1.thisIsTheController = true ∧
      (setTheRoleOfThisDeviceBasedOnItsWiring u w s).1.thisIsTheSwitchbox = false) ∧
    (totalOpenCircutsOf w = 1 → openControllerCircutsOf w ≠ 1 →
      (setTheRoleOfThisDeviceBasedOnItsWiring u w s).1.thisIsTheSwitchbox = true ∧
      (setTheRoleOfThisDeviceBasedOnItsWiring u w s).1.thisIsTheController = false) ∧
    (totalOpenCircutsOf w ≠ 1 →
      (setTheRoleOfThisDeviceBasedOnItsWiring u w s).2 = false ∧
      (setTheRoleOfThisDeviceBasedOnItsWiring u w s).1.FlashRateOfTheLED =
        FlashRateOfTheLEDWhenThereIsAWiringProblem ∧
      (setTheRoleOfThisDeviceBasedOnItsWiring u w s).1.thisIsTheController = false ∧
      (setTheRoleOfThisDeviceBasedOnItsWiring u w s).1.thisIsTheSwitchbox = false) ∧
    (totalOpenCircutsOf w = 1 → openControllerCircutsOf w ≠ 1 → u = false →
      (setTheRoleOfThisDeviceBasedOnItsWiring u w s).2 = false ∧
      (setTheRoleOfThisDeviceBasedOnItsWiring u w s).1.FlashRateOfTheLED =
        FlashRateOfTheLEDWhenThereIsAWiringProblem) := by
  by_cases ht : totalOpenCircutsOf w = 1 <;>
    by_cases hcw : openControllerCircutsOf w = 1 <;>
    by_cases hu : u = true <;>
    simp_all [setTheRoleOfThisDeviceBasedOnItsWiring]

/-- A wiring where only the Controller's normally-closed contact reads
closed on both samples. -/
def wControllerOnly : RoleWiringReads where
  cNCRead1 := 0
  cNCRead2 := 0
  cNORead1 := 1
  cNORead2 := 1
  sNCRead1 := 1
  sNCRead2 := 1
  sNORead1 := 1
  sNORead2 := 1

/-- Witness for Claim C6: the Controller-only wiring yields the Controller
role. -/
theorem setTheRole_wiring_spec_witness :
    (setTheRoleOfThisDeviceBasedOnItsWiring true wControllerOnly initialState).1.thisIsTheController =
      true :=
  ((setTheRole_wiring_spec true wControllerOnly initialState).2.1 (by decide) (by decide)).1

/-- A wiring where no contact reads closed (all samples high). -/
def wNoneClosed : RoleWiringReads where
  cNCRead1 := 1
  cNCRead2 := 1
  cNORead1 := 1
  cNORead2 := 1
  sNCRead1 := 1
  sNCRead2 := 1
  sNORead1 := 1
  sNORead2 := 1

/-- Counterexample to Claim C7 as stated: on ambiguous wiring (zero closed
contacts) the node does enter the terminal alarm loop with the relay
de-energized — but a de-energized relay means the network is UNBLOCKED
(the sketch boots fail-open): the boot state is `unblocked`, not blocked,
contradicting "boots blocked-safe, never unblocked". -/
theorem wiring_fault_boot_is_unblocked :
    isAlarmLoop (setupThroughRoleCheck true wNoneClosed) = true ∧
    (bootStateOf (setupThroughRoleCheck true wNoneClosed)).relayPin = false ∧
    (bootStateOf (setupThroughRoleCheck true wNoneClosed)).NetworkStatus =
      device_Status.unblocked ∧
    (bootStateOf (setupThroughRoleCheck true wNoneClosed)).NetworkStatus ≠
      device_Status.blocked := by decide

/-- Claim C7 (amended): when role negotiation fails (zero or two-or-more
closed contacts, or a Switchbox/build mismatch), the node enters the
terminal alarm-only loop — no radio activity or actuation, the sole relay
write being boot's `LOW` — with the WiringProblem flash rate set; the
relay stays de-energized, so the node boots with the network UNBLOCKED
(fail-open), not blocked. -/
theorem wiring_fault_alarm_loop (u : Bool) (w : RoleWiringReads)
    (hfail :
      (setTheRoleOfThisDeviceBasedOnItsWiring u w (setupTheESP32Pins initialState)).2 =
        false) :
    setupThroughRoleCheck u w =
      BootOutcome.alarmLoopForever
        (setTheRoleOfThisDeviceBasedOnItsWiring u w (setupTheESP32Pins initialState)).1 ∧
    (bootStateOf (setupThroughRoleCheck u w)).relayTrace = [false] ∧
    (bootStateOf (setupThroughRoleCheck u w)).relayPin = false ∧
    (bootStateOf (setupThroughRoleCheck u w)).NetworkStatus = device_Status.unblocked ∧
    (bootStateOf (setupThroughRoleCheck u w)).FlashRateOfTheLED =
      FlashRateOfTheLEDWhenThereIsAWiringProblem := by
  by_cases ht : totalOpenCircutsOf w = 1 <;>
    by_cases hcw : openControllerCircutsOf w = 1 <;>
    by_cases hu : u = true <;>
    simp_all [setupThroughRoleCheck, setTheRoleOfThisDeviceBasedOnItsWiring, bootStateOf,
      setupTheESP32Pins, digitalWriteRelay, initialState]

/-- Witness for Claim C7 (amended) at the all-open wiring. -/
theorem wiring_fault_alarm_loop_witness :
    (bootStateOf (setupThroughRoleCheck true wNoneClosed)).FlashRateOfTheLED =
      FlashRateOfTheLEDWhenThereIsAWiringProblem :=
  (wiring_fault_alarm_loop true wNoneClosed (by decide)).2.2.2.2

/-- Counterexample to Claim C8 as stated: a role-mismatched message
(Controller receiving `networkStatusReply`) raises the comms alarm but
does NOT leave the heartbeat deadline unchanged — `OnDataRecv`
unconditionally resets it (here from 30000 to 31000) at entry. -/
theorem OnDataRecv_mismatch_resets_deadline :
    (OnDataRecv true 1000 sampleEnv
        ⟨transmission_Type.networkStatusReply, device_Status.blocked⟩
        sampleControllerState).FlashRateOfTheLED = 333 ∧
    sampleControllerState.nextTouchBaseTimeTarget = 30000 ∧
    (OnDataRecv true 1000 sampleEnv
        ⟨transmission_Type.networkStatusReply, device_Status.blocked⟩
        sampleControllerState).nextTouchBaseTimeTarget = 31000 := by decide

/-- Claim C8 (amended): a message whose kind the receiving role does not
handle leaves the three status variables, the relay level and trace, and
the roles unchanged, and sets exactly the comms-problem flash rate — but
the heartbeat deadline is not left unchanged: `OnDataRecv` resets it to
now + 30 s (+1.5 s on a non-Controller node) at entry for every inbound
message, mismatched ones included; the handler is a total function (never
crashes or blocks). -/
theorem OnDataRecv_mismatch_spec (u : Bool) (now : Nat) (env : Env)
    (msg : transmission_Structure) (s : NodeState)
    (hmis : (s.thisIsTheController = true ∧ handledByController msg.transmission = false) ∨
      (s.thisIsTheController = false ∧
        handledBySwitchboxNode msg.transmission = false)) :
    OnDataRecv u now env msg s =
      { s with
          FlashRateOfTheLED :=
            FlashRateOfTheLEDWhenThereIsACommunicationsProblemBetweenTheControllerAndSwitch,
          nextTouchBaseTimeTarget := goodTouchBaseTarget now s.thisIsTheController } := by
  obtain ⟨t, st⟩ := msg
  rcases hmis with ⟨hc, hk⟩ | ⟨hc, hk⟩ <;> cases t <;>
    simp_all [OnDataRecv, handledByController, handledBySwitchboxNode]

/-- Witness for Claim C8 (amended): the Controller receiving
`requestSwitchboxStatus` ends with only the flash rate and deadline
updated. -/
theorem OnDataRecv_mismatch_spec_witness :
    (OnDataRecv true 1000 sampleEnv
        ⟨transmission_Type.requestSwitchboxStatus, device_Status.unknown⟩
        sampleControllerState).nextTouchBaseTimeTarget = 31000 := by
  rw [OnDataRecv_mismatch_spec true 1000 sampleEnv
    ⟨transmission_Type.requestSwitchboxStatus, device_Status.unknown⟩
    sampleControllerState (Or.inl ⟨rfl, rfl⟩)]
  decide

end ESP32NetworkBlocker
